import Mathlib

/-!
Shallow embedding of the LegalMind backend (src/app.py) and proofs about it.

The app is a Flask service with two ORM tables (Document, HistoryEvent) and
four routes: POST /simplify, POST /ask, GET /documents, GET /history,
DELETE /document/<id>.  We embed the database as explicit state (lists of
rows plus autoincrement counters), and the two external effects — PDF text
extraction (PyPDF2) and the Gemini LLM calls — as oracle inputs to the
handlers.  Timestamps (datetime.utcnow at each insert) are oracle inputs as
well, one per insert, since Python gives no monotonicity guarantee.

The prompt-building helpers (_build_analysis_prompt, _build_qa_prompt) are
pure string templates whose output flows only into the opaque LLM call,
which we model as the GenOutcome oracle; their text is therefore not
observable in any handler output or database row and is not embedded.
-/

namespace LegalMind

/-- A row of the Document table (class Document, app.py lines 27-47).
Timestamps are Nats standing for datetime values. -/
structure Document where
  id : Nat
  filename : String
  upload_date : Nat
  status : String
  summary : Option String
  full_text : Option String
  model_used : Option String
deriving Repr, DecidableEq

/-- A row of the HistoryEvent table (class HistoryEvent, app.py lines 49-58). -/
structure HistoryEvent where
  id : Nat
  event_type : String
  document_name : String
  timestamp : Nat
deriving Repr, DecidableEq

/-- The SQLite database: the two tables plus their autoincrement counters.
Rows are listed in insertion order. -/
structure DB where
  documents : List Document
  events : List HistoryEvent
  nextDocId : Nat
  nextEventId : Nat
deriving Repr, DecidableEq

/-- The state after `db.create_all()` on a fresh file: both tables empty,
autoincrement ids starting at 1. -/
def emptyDB : DB := ⟨[], [], 1, 1⟩

/-- Behaviour of a PDF byte stream under PyPDF2: either `PdfReader`/page
iteration raises, or it yields a list of per-page `page.extract_text()`
results (arbitrary strings, possibly empty). -/
inductive PdfStream where
  | raises
  | pages (texts : List String)
deriving Repr, DecidableEq

/-- extract_text_from_pdf (app.py lines 99-107): joins the text of the pages
whose `extract_text()` is truthy (non-empty), returns None when reading
raises.  Note the non-raising branch returns the joined string unchanged,
even when it is empty or whitespace-only. -/
def extract_text_from_pdf : PdfStream → Option String
  | .raises => none
  | .pages texts => some (String.join (texts.filter fun t => t ≠ ""))

/-- Membership in the whitespace set of Python str.strip / str.isspace: the
code points of category Zs, Zl, Zp or bidirectional class WS, B, S —
U+0009..U+000D, U+001C..U+001F, space, U+0085, U+00A0, U+1680,
U+2000..U+200A, U+2028, U+2029, U+202F, U+205F and U+3000. -/
def isPySpace (c : Char) : Bool :=
  ('\t' ≤ c ∧ c ≤ '\r') ∨ ('\x1c' ≤ c ∧ c ≤ '\x1f') ∨ c = ' ' ∨
  c = '\x85' ∨ c = '\xa0' ∨ c = '\u1680' ∨ ('\u2000' ≤ c ∧ c ≤ '\u200a') ∨
  c = '\u2028' ∨ c = '\u2029' ∨ c = '\u202f' ∨ c = '\u205f' ∨ c = '\u3000'

/-- The Python test `not s.strip()`: true exactly when every character of
`s` is whitespace (in particular when `s` is empty). -/
def stripIsEmpty (s : String) : Bool := s.data.all isPySpace

/-- The process environment: whether GOOGLE_API_KEY is set. -/
structure Env where
  apiKeyPresent : Bool
deriving Repr, DecidableEq

/-- The ValueError message raised by get_gemini_model when the key is absent
(app.py line 85). -/
def keyErrorMsg : String := "GOOGLE_API_KEY is not set. Cannot initialize Gemini model."

/-- The allow-list of model names (app.py line 89). -/
def allowed_models : List String := ["gemini-1.5-pro", "gemini-1.5-flash"]

/-- The model-name validation step of get_gemini_model (app.py lines 89-92):
names outside the allow-list fall back to the fixed default. -/
def resolve_model_name (model_name : String) : String :=
  if model_name ∈ allowed_models then model_name else "gemini-1.5-flash"

/-- get_gemini_model (app.py lines 78-97).  `initError` is the oracle for
`genai.GenerativeModel` raising; any exception there is re-raised as a
ValueError.  The result is the resolved model name standing for the handle,
or the ValueError message. -/
def get_gemini_model (env : Env) (initError : Option String) (model_name : String) :
    Except String String :=
  if env.apiKeyPresent = false then
    .error keyErrorMsg
  else
    let resolved := resolve_model_name model_name
    match initError with
    | some e => .error ("Failed to initialize Gemini model \x27" ++ resolved ++
        "\x27. Ensure API key is valid and model exists: " ++ e)
    | none => .ok resolved

/-- log_event (app.py lines 109-113): insert-and-commit one HistoryEvent,
timestamped `now` (the defaulted datetime.utcnow). -/
def log_event (event_type : String) (document_name : String) (now : Nat) (db : DB) : DB :=
  { db with
    events := db.events ++
      [{ id := db.nextEventId, event_type := event_type,
         document_name := document_name, timestamp := now }],
    nextEventId := db.nextEventId + 1 }

/-- Insert-and-commit one Document row, timestamped `now`, with the next
autoincrement id. -/
def addDocument (db : DB) (filename : String) (now : Nat) (status : String)
    (summary full_text model_used : Option String) : DB :=
  { db with
    documents := db.documents ++
      [{ id := db.nextDocId, filename := filename, upload_date := now, status := status,
         summary := summary, full_text := full_text, model_used := model_used }],
    nextDocId := db.nextDocId + 1 }

/-- Mutate-and-commit the Document row with primary key `docId` (the ORM
attribute assignments followed by db.session.commit()). -/
def updateDocument (db : DB) (docId : Nat) (f : Document → Document) : DB :=
  { db with documents := db.documents.map fun d => if d.id = docId then f d else d }

/-- Outcome of the generation call (model_instance.generate_content /
chat.send_message together with reading response.text): the returned text,
or the exception it raises, split by whether that exception is a ValueError
(the except clauses at app.py lines 223 and 230 distinguish exactly that). -/
inductive GenOutcome where
  | ok (text : String)
  | raisesValueError (msg : String)
  | raisesOther (msg : String)
deriving Repr, DecidableEq

/-- An uploaded file: its filename and the behaviour of its byte stream. -/
structure UploadedFile where
  filename : String
  stream : PdfStream
deriving Repr, DecidableEq

/-- A /simplify request: the optional pdfFile part and the optional form
fields model and prompt. -/
structure SimplifyRequest where
  pdfFile : Option UploadedFile
  model : Option String
  prompt : Option String
deriving Repr, DecidableEq

/-- A JSON-object HTTP response: status code and (flat, string-valued)
body fields. -/
structure HttpResponse where
  status_code : Nat
  body : List (String × String)
deriving Repr, DecidableEq

/-- simplify_document (app.py lines 183-236).  `t1 t2 t3` are the utcnow
values at the three inserts that can occur (upload event, document row,
terminal event); `initError` and `gen` are the LLM oracles. -/
def simplify_document (env : Env) (initError : Option String) (gen : GenOutcome)
    (req : SimplifyRequest) (t1 t2 t3 : Nat) (db : DB) : HttpResponse × DB :=
  match req.pdfFile with
  | none => (⟨400, [("error", "No PDF file provided.")]⟩, db)
  | some pdf_file =>
    if pdf_file.filename = "" then (⟨400, [("error", "No selected file.")]⟩, db)
    else
      let selected_model_name := req.model.getD "gemini-1.5-flash"
      let db1 := log_event "UPLOAD_SUCCESS" pdf_file.filename t1 db
      let document_text := extract_text_from_pdf pdf_file.stream
      if document_text = none ∨ stripIsEmpty (document_text.getD "") then
        let db2 := addDocument db1 pdf_file.filename t2 "Analysis Failed"
          (some "Could not extract text from PDF.") none (some selected_model_name)
        let db3 := log_event "TEXT_EXTRACT_FAIL" pdf_file.filename t3 db2
        (⟨400, [("error", "Could not extract text from the PDF.")]⟩, db3)
      else
        let text := document_text.getD ""
        let new_doc_id := db1.nextDocId
        let db2 := addDocument db1 pdf_file.filename t2 "In Progress"
          none (some text) (some selected_model_name)
        match get_gemini_model env initError selected_model_name with
        | .ok _resolved =>
          match gen with
          | .ok rtext =>
            let db3 := updateDocument db2 new_doc_id
              fun d => { d with summary := some rtext, status := "Analyzed" }
            let db4 := log_event "ANALYSIS_SUCCESS" pdf_file.filename t3 db3
            (⟨200, [("summary", rtext), ("document_text", text)]⟩, db4)
          | .raisesValueError e =>
            let db3 := updateDocument db2 new_doc_id
              fun d => { d with status := "Analysis Failed", summary := some ("API Error: " ++ e) }
            let db4 := log_event "ANALYSIS_FAIL" pdf_file.filename t3 db3
            (⟨500, [("error", "AI model configuration error: " ++ e)]⟩, db4)
          | .raisesOther e =>
            let db3 := updateDocument db2 new_doc_id
              fun d => { d with status := "Analysis Failed", summary := some ("Analysis failed: " ++ e) }
            let db4 := log_event "ANALYSIS_FAIL" pdf_file.filename t3 db3
            (⟨500, [("error",
              "Failed to get a response from the AI model. Check server logs for details.")]⟩, db4)
        | .error e =>
          let db3 := updateDocument db2 new_doc_id
            fun d => { d with status := "Analysis Failed", summary := some ("API Error: " ++ e) }
          let db4 := log_event "ANALYSIS_FAIL" pdf_file.filename t3 db3
          (⟨500, [("error", "AI model configuration error: " ++ e)]⟩, db4)

/-- A parsed /ask JSON body; each field is present or absent. `none` for the
whole body stands for a request whose JSON is absent or falsy. -/
structure AskBody where
  document_text : Option String
  question : Option String
  model : Option String
deriving Repr, DecidableEq

/-- ask_question (app.py lines 238-268).  The handler never touches the
database; its only inputs are the request body and the LLM oracles. -/
def ask_question (env : Env) (initError : Option String) (gen : GenOutcome)
    (body : Option AskBody) : HttpResponse :=
  match body with
  | none => ⟨400, [("error", "Missing document_text or question in request.")]⟩
  | some data =>
    if data.document_text = none ∨ data.question = none then
      ⟨400, [("error", "Missing document_text or question in request.")]⟩
    else
      let selected_model_name := data.model.getD "gemini-1.5-flash"
      match get_gemini_model env initError selected_model_name with
      | .ok _resolved =>
        match gen with
        | .ok answer => ⟨200, [("answer", answer)]⟩
        | .raisesValueError e =>
          ⟨500, [("error", "AI model configuration error for chat: " ++ e)]⟩
        | .raisesOther _ =>
          ⟨500, [("error",
            "Failed to get a response for your question. Check server logs for details.")]⟩
      | .error e => ⟨500, [("error", "AI model configuration error for chat: " ++ e)]⟩

/-- The ORDER BY relation of /documents: upload_date descending. -/
def docOrder (a b : Document) : Prop := b.upload_date ≤ a.upload_date

instance : DecidableRel docOrder := fun _ _ => Nat.decLe _ _

instance : IsTotal Document docOrder := ⟨fun a b => Nat.le_total b.upload_date a.upload_date⟩

instance : IsTrans Document docOrder := ⟨fun _ _ _ h1 h2 => Nat.le_trans h2 h1⟩

/-- The ORDER BY relation of /history: timestamp descending. -/
def evtOrder (a b : HistoryEvent) : Prop := b.timestamp ≤ a.timestamp

instance : DecidableRel evtOrder := fun _ _ => Nat.decLe _ _

instance : IsTotal HistoryEvent evtOrder := ⟨fun a b => Nat.le_total b.timestamp a.timestamp⟩

instance : IsTrans HistoryEvent evtOrder := ⟨fun _ _ _ h1 h2 => Nat.le_trans h2 h1⟩

/-- get_documents (app.py lines 270-274): all Document rows ordered by
upload_date descending.  Serialisation (to_dict) maps each row in place and
is omitted; the response lists exactly these rows in this order. -/
def get_documents (db : DB) : List Document :=
  List.insertionSort docOrder db.documents

/-- get_history (app.py lines 276-280): all HistoryEvent rows ordered by
timestamp descending. -/
def get_history (db : DB) : List HistoryEvent :=
  List.insertionSort evtOrder db.events

/-- delete_document (app.py lines 282-289): 404 when no row has the id
(Query.get_or_404); otherwise delete that row, log DELETE_DOCUMENT with its
filename at time `now`, return 200.  The 404 page Flask produces is not a
JSON object; its body is modelled as empty. -/
def delete_document (doc_id : Nat) (now : Nat) (db : DB) : HttpResponse × DB :=
  match db.documents.find? (fun d => d.id = doc_id) with
  | none => (⟨404, []⟩, db)
  | some doc =>
    let db1 : DB := { db with documents := db.documents.filter fun d => d.id ≠ doc_id }
    let db2 := log_event "DELETE_DOCUMENT" doc.filename now db1
    (⟨200, [("message", "Document deleted successfully.")]⟩, db2)

/-- One incoming HTTP request together with the oracle values (LLM outcomes,
utcnow readings) consumed while serving it. -/
inductive Request where
  | simplify (env : Env) (initError : Option String) (gen : GenOutcome)
      (req : SimplifyRequest) (t1 t2 t3 : Nat)
  | ask (env : Env) (initError : Option String) (gen : GenOutcome) (body : Option AskBody)
  | listDocuments
  | listHistory
  | deleteDoc (doc_id : Nat) (now : Nat)

/-- The database transition of one request.  /ask, /documents and /history
perform no writes (ask_question takes no database argument at all). -/
def step (db : DB) : Request → DB
  | .simplify env initError gen req t1 t2 t3 => (simplify_document env initError gen req t1 t2 t3 db).2
  | .ask _ _ _ _ => db
  | .listDocuments => db
  | .listHistory => db
  | .deleteDoc doc_id now => (delete_document doc_id now db).2

/-- The database reached from a fresh one by serving a list of requests. -/
def applyTrace (db : DB) (rs : List Request) : DB := rs.foldl step db

/-- Number of events of a given type in a list of events. -/
def countEvt (ty : String) (es : List HistoryEvent) : Nat :=
  (es.filter fun e => e.event_type = ty).length

/-- The events appended to the history by a transition from `db` to `db2`. -/
def appendedEvents (db db2 : DB) : List HistoryEvent := db2.events.drop db.events.length

/-- Number of Document rows created by the transition from `db` to `db2`
whose status in `db2` is `s`. -/
def createdWith (db db2 : DB) (s : String) : Nat :=
  ((db2.documents.drop db.documents.length).filter fun d => d.status = s).length

/-- Number of Document rows already present in `db` whose status was `fromS`
and is `toS` in `db2` (rows looked up by primary key). -/
def movedTo (db db2 : DB) (fromS toS : String) : Nat :=
  (db.documents.filter fun d =>
    d.status = fromS ∧
      ((db2.documents.find? fun d2 => d2.id = d.id).any fun d2 => d2.status = toS)).length

/-- The primary-key discipline SQLite's autoincrement maintains: document ids
are pairwise distinct and below the next id to be assigned. -/
def IdsOk (db : DB) : Prop :=
  (db.documents.map Document.id).Nodup ∧ ∀ d ∈ db.documents, d.id < db.nextDocId

/-- The document statuses named by the spec. -/
def statusSet : List String := ["Pending", "In Progress", "Analyzed", "Analysis Failed"]

/-- Every document row carries a status drawn from the spec's status set. -/
def statusesOk (db : DB) : Prop := ∀ d ∈ db.documents, d.status ∈ statusSet

/-- Executable check that a list of timestamps is strictly descending. -/
def strictlyDesc : List Nat → Bool
  | [] => true
  | [_] => true
  | a :: b :: rest => decide (b < a) && strictlyDesc (b :: rest)

/-- C4: For every requested model name outside the fixed two-name allow-list,
the Model Gateway substitutes the fixed default gemini-1.5-flash and the
request proceeds exactly as a request for the default model; resolving a
model name never fails solely because the name is unrecognized. -/
theorem C4_unknown_model_falls_back (name : String) (hname : name ∉ allowed_models)
    (env : Env) (initError : Option String) :
    resolve_model_name name = "gemini-1.5-flash" ∧
    get_gemini_model env initError name = get_gemini_model env initError "gemini-1.5-flash" := by
  have hres : resolve_model_name name = "gemini-1.5-flash" := by
    simp [resolve_model_name, hname]
  have hdef : resolve_model_name "gemini-1.5-flash" = "gemini-1.5-flash" := by
    simp [resolve_model_name, allowed_models]
  exact ⟨hres, by simp [get_gemini_model, hres, hdef]⟩

theorem C4_witness :
    "gpt-4" ∉ allowed_models ∧
    (resolve_model_name "gpt-4" = "gemini-1.5-flash" ∧
      get_gemini_model ⟨true⟩ none "gpt-4" = get_gemini_model ⟨true⟩ none "gemini-1.5-flash") :=
  ⟨by decide, C4_unknown_model_falls_back "gpt-4" (by decide) ⟨true⟩ none⟩

/-- C5 counterexample: on a PDF whose single page extracts to the single
space (so the stream yields only whitespace content), the extractor returns
that whitespace-only string rather than the null failure signal the claim
requires; likewise a page extracting to the empty string gives the empty
string back. -/
theorem C5_counterexample_whitespace_extract :
    extract_text_from_pdf (PdfStream.pages [" "]) = some " " ∧ stripIsEmpty " " = true ∧
    extract_text_from_pdf (PdfStream.pages [""]) = some "" :=
  ⟨rfl, rfl, rfl⟩

/-- C5 amended: the extractor returns the null failure signal exactly when
reading the PDF raises; otherwise it returns the joined text of the pages
with non-empty text, which may itself be empty or whitespace-only (the
/simplify handler, not the extractor, rejects that case). -/
theorem C5_amended_none_iff_raises (s : PdfStream) :
    extract_text_from_pdf s = none ↔ s = PdfStream.raises := by
  cases s <;> simp [extract_text_from_pdf]

/-- C8: a /ask request missing document_text or question gets a 400 response
and leaves the persistent state untouched (the handler takes no database
input at all, so the step relation is the identity). -/
theorem C8_ask_missing_fields (env : Env) (initError : Option String) (gen : GenOutcome)
    (body : Option AskBody) (db : DB)
    (h : body = none ∨ ∃ data, body = some data ∧
      (data.document_text = none ∨ data.question = none)) :
    (ask_question env initError gen body).status_code = 400 ∧
    step db (Request.ask env initError gen body) = db := by
  refine ⟨?_, rfl⟩
  rcases h with h | ⟨data, hb, hmiss⟩
  · subst h; rfl
  · subst hb
    simp only [ask_question]
    rw [if_pos hmiss]

theorem C8_witness :
    (ask_question ⟨true⟩ none (GenOutcome.ok "a") (some ⟨none, some "q", none⟩)).status_code = 400 ∧
    step emptyDB (Request.ask ⟨true⟩ none (GenOutcome.ok "a") (some ⟨none, some "q", none⟩)) =
      emptyDB :=
  C8_ask_missing_fields ⟨true⟩ none (GenOutcome.ok "a") (some ⟨none, some "q", none⟩) emptyDB
    (Or.inr ⟨⟨none, some "q", none⟩, rfl, Or.inl rfl⟩)

/-- The executable strict-descent check agrees with the Chain' predicate. -/
theorem strictlyDesc_iff_chain (ts : List Nat) :
    strictlyDesc ts = true ↔ List.Chain' (fun a b => b < a) ts := by
  match ts with
  | [] => simp [strictlyDesc]
  | [_] => simp [strictlyDesc]
  | a :: b :: rest =>
    rw [List.chain'_cons, ← strictlyDesc_iff_chain (b :: rest)]
    simp [strictlyDesc]

/-- C9 counterexample: two uploads committed at the same clock reading (a
real possibility, datetime.utcnow has finite resolution and no monotonicity
guarantee) give a /documents listing that is not strictly descending in
upload_date. -/
theorem C9_counterexample_tied_timestamps :
    strictlyDesc ((get_documents (applyTrace emptyDB
        [Request.simplify ⟨true⟩ none (GenOutcome.ok "S")
          ⟨some ⟨"a.pdf", PdfStream.pages ["hello"]⟩, none, none⟩ 1 7 2,
         Request.simplify ⟨true⟩ none (GenOutcome.ok "S")
          ⟨some ⟨"b.pdf", PdfStream.pages ["world"]⟩, none, none⟩ 3 7 4])).map
      Document.upload_date) = false := by
  rfl

/-- C9 amended: every /documents response lists exactly the Document rows,
ordered by upload_date descending, and every /history response lists exactly
the HistoryEvent rows, ordered by timestamp descending — non-strictly: rows
sharing a timestamp may appear in either adjacent order. -/
theorem C9_amended_sorted_desc (db : DB) :
    (get_documents db).Perm db.documents ∧ List.Sorted docOrder (get_documents db) ∧
    (get_history db).Perm db.events ∧ List.Sorted evtOrder (get_history db) :=
  ⟨List.perm_insertionSort docOrder db.documents,
   List.sorted_insertionSort docOrder db.documents,
   List.perm_insertionSort evtOrder db.events,
   List.sorted_insertionSort evtOrder db.events⟩

/-- C1: a /simplify request whose PDF yields extractable non-blank text and
whose generation call succeeds stores the model text as the summary of the
new Document, sets its status to Analyzed, appends exactly the two events
UPLOAD_SUCCESS and ANALYSIS_SUCCESS (so exactly one ANALYSIS_SUCCESS), and
returns 200 with the summary and the extracted text in the body. -/
theorem C1_simplify_success (env : Env)
    (req : SimplifyRequest) (t1 t2 t3 : Nat) (db : DB) (f : UploadedFile) (dtext rtext : String)
    (hfile : req.pdfFile = some f) (hname : f.filename ≠ "")
    (hex : extract_text_from_pdf f.stream = some dtext)
    (hne : stripIsEmpty dtext = false)
    (hkey : env.apiKeyPresent = true) :
    (simplify_document env none (GenOutcome.ok rtext) req t1 t2 t3 db).1 =
      ⟨200, [("summary", rtext), ("document_text", dtext)]⟩ ∧
    (simplify_document env none (GenOutcome.ok rtext) req t1 t2 t3 db).2.documents.drop
        db.documents.length =
      [{ id := db.nextDocId, filename := f.filename, upload_date := t2,
         status := "Analyzed", summary := some rtext, full_text := some dtext,
         model_used := some (req.model.getD "gemini-1.5-flash") }] ∧
    (simplify_document env none (GenOutcome.ok rtext) req t1 t2 t3 db).2.events = db.events ++
      [{ id := db.nextEventId, event_type := "UPLOAD_SUCCESS", document_name := f.filename,
         timestamp := t1 },
       { id := db.nextEventId + 1, event_type := "ANALYSIS_SUCCESS", document_name := f.filename,
         timestamp := t3 }] := by
  simp [simplify_document, hfile, hname, hex, hne, hkey, get_gemini_model,
    log_event, addDocument, updateDocument, List.drop_left']

theorem C1_witness :
    (simplify_document ⟨true⟩ none (GenOutcome.ok "OK")
        ⟨some ⟨"a.pdf", PdfStream.pages ["hello"]⟩, none, none⟩ 1 2 3 emptyDB).1 =
      ⟨200, [("summary", "OK"), ("document_text", "hello")]⟩ ∧
    (simplify_document ⟨true⟩ none (GenOutcome.ok "OK")
        ⟨some ⟨"a.pdf", PdfStream.pages ["hello"]⟩, none, none⟩ 1 2 3 emptyDB).2.documents.drop
        emptyDB.documents.length =
      [{ id := 1, filename := "a.pdf", upload_date := 2, status := "Analyzed",
         summary := some "OK", full_text := some "hello",
         model_used := some "gemini-1.5-flash" }] ∧
    (simplify_document ⟨true⟩ none (GenOutcome.ok "OK")
        ⟨some ⟨"a.pdf", PdfStream.pages ["hello"]⟩, none, none⟩ 1 2 3 emptyDB).2.events =
      emptyDB.events ++
      [{ id := 1, event_type := "UPLOAD_SUCCESS", document_name := "a.pdf", timestamp := 1 },
       { id := 2, event_type := "ANALYSIS_SUCCESS", document_name := "a.pdf", timestamp := 3 }] :=
  C1_simplify_success ⟨true⟩ ⟨some ⟨"a.pdf", PdfStream.pages ["hello"]⟩, none, none⟩ 1 2 3 emptyDB
    ⟨"a.pdf", PdfStream.pages ["hello"]⟩ "hello" "OK" rfl (by decide) rfl (by decide) rfl

/-- C2: a /simplify request whose PDF yields no extractable text (extraction
raises or yields only empty/whitespace content) gets a 400 response, persists
a Document with status Analysis Failed and the fixed summary, and appends
exactly the two events UPLOAD_SUCCESS and TEXT_EXTRACT_FAIL (so exactly one
TEXT_EXTRACT_FAIL). -/
theorem C2_simplify_extract_fail (env : Env) (initError : Option String) (gen : GenOutcome)
    (req : SimplifyRequest) (t1 t2 t3 : Nat) (db : DB) (f : UploadedFile)
    (hfile : req.pdfFile = some f) (hname : f.filename ≠ "")
    (hfail : extract_text_from_pdf f.stream = none ∨
      stripIsEmpty ((extract_text_from_pdf f.stream).getD "") = true) :
    (simplify_document env initError gen req t1 t2 t3 db).1.status_code = 400 ∧
    (simplify_document env initError gen req t1 t2 t3 db).2.documents = db.documents ++
      [{ id := db.nextDocId, filename := f.filename, upload_date := t2,
         status := "Analysis Failed", summary := some "Could not extract text from PDF.",
         full_text := none, model_used := some (req.model.getD "gemini-1.5-flash") }] ∧
    (simplify_document env initError gen req t1 t2 t3 db).2.events = db.events ++
      [{ id := db.nextEventId, event_type := "UPLOAD_SUCCESS", document_name := f.filename,
         timestamp := t1 },
       { id := db.nextEventId + 1, event_type := "TEXT_EXTRACT_FAIL", document_name := f.filename,
         timestamp := t3 }] := by
  simp [simplify_document, hfile, hname, hfail, log_event, addDocument]

theorem C2_witness :
    (simplify_document ⟨true⟩ none (GenOutcome.ok "OK")
        ⟨some ⟨"b.pdf", PdfStream.pages [""]⟩, none, none⟩ 1 2 3 emptyDB).1.status_code = 400 ∧
    (simplify_document ⟨true⟩ none (GenOutcome.ok "OK")
        ⟨some ⟨"b.pdf", PdfStream.pages [""]⟩, none, none⟩ 1 2 3 emptyDB).2.documents =
      emptyDB.documents ++
      [{ id := 1, filename := "b.pdf", upload_date := 2, status := "Analysis Failed",
         summary := some "Could not extract text from PDF.", full_text := none,
         model_used := some "gemini-1.5-flash" }] ∧
    (simplify_document ⟨true⟩ none (GenOutcome.ok "OK")
        ⟨some ⟨"b.pdf", PdfStream.pages [""]⟩, none, none⟩ 1 2 3 emptyDB).2.events =
      emptyDB.events ++
      [{ id := 1, event_type := "UPLOAD_SUCCESS", document_name := "b.pdf", timestamp := 1 },
       { id := 2, event_type := "TEXT_EXTRACT_FAIL", document_name := "b.pdf", timestamp := 3 }] :=
  C2_simplify_extract_fail ⟨true⟩ none (GenOutcome.ok "OK")
    ⟨some ⟨"b.pdf", PdfStream.pages [""]⟩, none, none⟩ 1 2 3 emptyDB
    ⟨"b.pdf", PdfStream.pages [""]⟩ rfl (by decide) (Or.inr (by decide))

/-- C6: with no API credential in the environment, resolving a model handle
fails with the configuration ValueError, /simplify surfaces it as the
configuration-error message and /ask as the chat configuration-error
message, both with status 500 — the same status code as, but a message
distinct from, the generic generation-call-failure response. -/
theorem C6_missing_key_config_error (env : Env) (initError : Option String) (gen : GenOutcome)
    (req : SimplifyRequest) (t1 t2 t3 : Nat) (db : DB) (f : UploadedFile) (dtext : String)
    (d q e : String) (m : Option String)
    (hkey : env.apiKeyPresent = false)
    (hfile : req.pdfFile = some f) (hname : f.filename ≠ "")
    (hex : extract_text_from_pdf f.stream = some dtext) (hne : stripIsEmpty dtext = false) :
    get_gemini_model env initError (req.model.getD "gemini-1.5-flash") =
      Except.error keyErrorMsg ∧
    (simplify_document env initError gen req t1 t2 t3 db).1 =
      ⟨500, [("error", "AI model configuration error: " ++ keyErrorMsg)]⟩ ∧
    ask_question env initError gen (some ⟨some d, some q, m⟩) =
      ⟨500, [("error", "AI model configuration error for chat: " ++ keyErrorMsg)]⟩ ∧
    (simplify_document ⟨true⟩ none (GenOutcome.raisesOther e) req t1 t2 t3 db).1 =
      ⟨500, [("error",
        "Failed to get a response from the AI model. Check server logs for details.")]⟩ ∧
    "AI model configuration error: " ++ keyErrorMsg ≠
      "Failed to get a response from the AI model. Check server logs for details." := by
  refine ⟨by simp [get_gemini_model, hkey], ?_, ?_, ?_, by decide⟩
  · simp [simplify_document, hfile, hname, hex, hne, hkey, get_gemini_model,
      log_event, addDocument, updateDocument]
  · simp [ask_question, get_gemini_model, hkey]
  · simp [simplify_document, hfile, hname, hex, hne, get_gemini_model,
      log_event, addDocument, updateDocument]

theorem C6_witness :
    get_gemini_model ⟨false⟩ none ((none : Option String).getD "gemini-1.5-flash") =
      Except.error keyErrorMsg ∧
    (simplify_document ⟨false⟩ none (GenOutcome.ok "OK")
        ⟨some ⟨"c.pdf", PdfStream.pages ["hi"]⟩, none, none⟩ 1 2 3 emptyDB).1 =
      ⟨500, [("error", "AI model configuration error: " ++ keyErrorMsg)]⟩ ∧
    ask_question ⟨false⟩ none (GenOutcome.ok "OK") (some ⟨some "doc", some "why", none⟩) =
      ⟨500, [("error", "AI model configuration error for chat: " ++ keyErrorMsg)]⟩ ∧
    (simplify_document ⟨true⟩ none (GenOutcome.raisesOther "boom")
        ⟨some ⟨"c.pdf", PdfStream.pages ["hi"]⟩, none, none⟩ 1 2 3 emptyDB).1 =
      ⟨500, [("error",
        "Failed to get a response from the AI model. Check server logs for details.")]⟩ ∧
    "AI model configuration error: " ++ keyErrorMsg ≠
      "Failed to get a response from the AI model. Check server logs for details." :=
  C6_missing_key_config_error ⟨false⟩ none (GenOutcome.ok "OK")
    ⟨some ⟨"c.pdf", PdfStream.pages ["hi"]⟩, none, none⟩ 1 2 3 emptyDB
    ⟨"c.pdf", PdfStream.pages ["hi"]⟩ "hi" "doc" "why" "boom" none rfl rfl (by decide) rfl
    (by decide)

/-- C7: DELETE /document/{id} returns 404 and changes nothing when no row
has the id; when one does, the response is 200, no row with that id appears
in later /documents results, and exactly one DELETE_DOCUMENT event bearing
the row's filename is appended. -/
theorem C7_delete_document (doc_id now : Nat) (db : DB) :
    ((db.documents.find? fun d => d.id = doc_id) = none →
      (delete_document doc_id now db).1.status_code = 404 ∧
      (delete_document doc_id now db).2 = db) ∧
    (∀ doc, (db.documents.find? fun d => d.id = doc_id) = some doc →
      (delete_document doc_id now db).1 =
        ⟨200, [("message", "Document deleted successfully.")]⟩ ∧
      (∀ d ∈ get_documents (delete_document doc_id now db).2, d.id ≠ doc_id) ∧
      (delete_document doc_id now db).2.events = db.events ++
        [{ id := db.nextEventId, event_type := "DELETE_DOCUMENT",
           document_name := doc.filename, timestamp := now }]) := by
  constructor
  · intro h
    simp [delete_document, h]
  · intro doc h
    refine ⟨by simp [delete_document, h, log_event], ?_, by simp [delete_document, h, log_event]⟩
    intro d hd
    simp only [delete_document, h, log_event, get_documents, List.mem_insertionSort] at hd
    simp only [List.mem_filter] at hd
    simpa using hd.2

theorem C7_witness :
    (((emptyDB.documents.find? fun d => d.id = 1) = none →
      (delete_document 1 5 emptyDB).1.status_code = 404 ∧
      (delete_document 1 5 emptyDB).2 = emptyDB) ∧
    (∀ doc, (emptyDB.documents.find? fun d => d.id = 1) = some doc →
      (delete_document 1 5 emptyDB).1 =
        ⟨200, [("message", "Document deleted successfully.")]⟩ ∧
      (∀ d ∈ get_documents (delete_document 1 5 emptyDB).2, d.id ≠ 1) ∧
      (delete_document 1 5 emptyDB).2.events = emptyDB.events ++
        [{ id := 1, event_type := "DELETE_DOCUMENT", document_name := doc.filename,
           timestamp := 5 }])) ∧
    (delete_document 1 5
        ⟨[⟨1, "a.pdf", 0, "Analyzed", none, none, none⟩], [], 2, 1⟩).1 =
      ⟨200, [("message", "Document deleted successfully.")]⟩ ∧
    (∀ d ∈ get_documents (delete_document 1 5
        ⟨[⟨1, "a.pdf", 0, "Analyzed", none, none, none⟩], [], 2, 1⟩).2, d.id ≠ 1) ∧
    (delete_document 1 5
        ⟨[⟨1, "a.pdf", 0, "Analyzed", none, none, none⟩], [], 2, 1⟩).2.events =
      (⟨[⟨1, "a.pdf", 0, "Analyzed", none, none, none⟩], [], 2, 1⟩ : DB).events ++
        [{ id := 1, event_type := "DELETE_DOCUMENT", document_name := "a.pdf",
           timestamp := 5 }] :=
  ⟨C7_delete_document 1 5 emptyDB,
   (C7_delete_document 1 5 ⟨[⟨1, "a.pdf", 0, "Analyzed", none, none, none⟩], [], 2, 1⟩).2
     ⟨1, "a.pdf", 0, "Analyzed", none, none, none⟩ (by decide)⟩

/-- C10: every Document persisted by /simplify records as model_used the
model name taken verbatim from the request — the default gemini-1.5-flash
when the form field is absent — in every path, while the Model Gateway
substitutes the default for any name outside the allow-list before the
generation call, so model_used can name a model that was never invoked. -/
theorem C10_model_used_verbatim (env : Env) (initError : Option String) (gen : GenOutcome)
    (req : SimplifyRequest) (t1 t2 t3 : Nat) (db : DB) (f : UploadedFile)
    (hfile : req.pdfFile = some f) (hname : f.filename ≠ "") :
    (∀ d ∈ (simplify_document env initError gen req t1 t2 t3 db).2.documents.drop
        db.documents.length, d.model_used = some (req.model.getD "gemini-1.5-flash")) ∧
    (∀ m, req.model = some m →
      ∀ d ∈ (simplify_document env initError gen req t1 t2 t3 db).2.documents.drop
        db.documents.length, d.model_used = some m) ∧
    (req.model = none →
      ∀ d ∈ (simplify_document env initError gen req t1 t2 t3 db).2.documents.drop
        db.documents.length, d.model_used = some "gemini-1.5-flash") ∧
    (∀ m, m ∉ allowed_models → resolve_model_name m ≠ m) := by
  have hmain : ∀ d ∈ (simplify_document env initError gen req t1 t2 t3 db).2.documents.drop
      db.documents.length, d.model_used = some (req.model.getD "gemini-1.5-flash") := by
    cases hext : extract_text_from_pdf f.stream with
    | none =>
      simp [simplify_document, hfile, hname, hext, log_event, addDocument]
    | some dtext =>
      cases hstrip : stripIsEmpty dtext with
      | true =>
        simp [simplify_document, hfile, hname, hext, hstrip, log_event, addDocument]
      | false =>
        cases hgm : get_gemini_model env initError (req.model.getD "gemini-1.5-flash") with
        | error e =>
          simp [simplify_document, hfile, hname, hext, hstrip, hgm, log_event,
            addDocument, updateDocument, List.drop_left']
        | ok h =>
          cases gen <;>
            simp [simplify_document, hfile, hname, hext, hstrip, hgm, log_event,
              addDocument, updateDocument, List.drop_left']
  refine ⟨hmain, ?_, ?_, ?_⟩
  · intro m hm d hd
    have := hmain d hd
    rwa [hm] at this
  · intro hm d hd
    have := hmain d hd
    rwa [hm] at this
  · intro m hnot heq
    rw [show resolve_model_name m = "gemini-1.5-flash" from by
      simp [resolve_model_name, hnot]] at heq
    exact hnot (heq ▸ (by decide : "gemini-1.5-flash" ∈ allowed_models))

theorem C10_witness :
    ((∀ d ∈ (simplify_document ⟨true⟩ none (GenOutcome.ok "OK")
        ⟨some ⟨"d.pdf", PdfStream.pages ["text"]⟩, some "gpt-9", none⟩ 1 2 3
          emptyDB).2.documents.drop emptyDB.documents.length,
      d.model_used = some ((some "gpt-9" : Option String).getD "gemini-1.5-flash")) ∧
    (∀ m, (some "gpt-9" : Option String) = some m →
      ∀ d ∈ (simplify_document ⟨true⟩ none (GenOutcome.ok "OK")
        ⟨some ⟨"d.pdf", PdfStream.pages ["text"]⟩, some "gpt-9", none⟩ 1 2 3
          emptyDB).2.documents.drop emptyDB.documents.length, d.model_used = some m) ∧
    ((some "gpt-9" : Option String) = none →
      ∀ d ∈ (simplify_document ⟨true⟩ none (GenOutcome.ok "OK")
        ⟨some ⟨"d.pdf", PdfStream.pages ["text"]⟩, some "gpt-9", none⟩ 1 2 3
          emptyDB).2.documents.drop emptyDB.documents.length,
        d.model_used = some "gemini-1.5-flash") ∧
    (∀ m, m ∉ allowed_models → resolve_model_name m ≠ m)) ∧
    ((∀ d ∈ (simplify_document ⟨true⟩ none (GenOutcome.ok "OK")
        ⟨some ⟨"e.pdf", PdfStream.pages ["text"]⟩, none, none⟩ 1 2 3
          emptyDB).2.documents.drop emptyDB.documents.length,
      d.model_used = some ((none : Option String).getD "gemini-1.5-flash")) ∧
    (∀ m, (none : Option String) = some m →
      ∀ d ∈ (simplify_document ⟨true⟩ none (GenOutcome.ok "OK")
        ⟨some ⟨"e.pdf", PdfStream.pages ["text"]⟩, none, none⟩ 1 2 3
          emptyDB).2.documents.drop emptyDB.documents.length, d.model_used = some m) ∧
    ((none : Option String) = none →
      ∀ d ∈ (simplify_document ⟨true⟩ none (GenOutcome.ok "OK")
        ⟨some ⟨"e.pdf", PdfStream.pages ["text"]⟩, none, none⟩ 1 2 3
          emptyDB).2.documents.drop emptyDB.documents.length,
        d.model_used = some "gemini-1.5-flash") ∧
    (∀ m, m ∉ allowed_models → resolve_model_name m ≠ m)) :=
  ⟨C10_model_used_verbatim ⟨true⟩ none (GenOutcome.ok "OK")
    ⟨some ⟨"d.pdf", PdfStream.pages ["text"]⟩, some "gpt-9", none⟩ 1 2 3 emptyDB
    ⟨"d.pdf", PdfStream.pages ["text"]⟩ rfl (by decide),
   C10_model_used_verbatim ⟨true⟩ none (GenOutcome.ok "OK")
    ⟨some ⟨"e.pdf", PdfStream.pages ["text"]⟩, none, none⟩ 1 2 3 emptyDB
    ⟨"e.pdf", PdfStream.pages ["text"]⟩ rfl (by decide)⟩


theorem idsOk_emptyDB : IdsOk emptyDB := by
  constructor
  · simp [emptyDB]
  · simp [emptyDB]

theorem idsOk_log_event (ty nm : String) (t : Nat) (db : DB) (h : IdsOk db) :
    IdsOk (log_event ty nm t db) := by
  simpa [IdsOk, log_event] using h

theorem idsOk_addDocument (db : DB) (fn : String) (t : Nat) (s : String)
    (su ft mu : Option String) (h : IdsOk db) :
    IdsOk (addDocument db fn t s su ft mu) := by
  obtain ⟨hnd, hlt⟩ := h
  constructor
  · simp only [addDocument, List.map_append, List.map_cons, List.map_nil]
    rw [List.nodup_append]
    refine ⟨hnd, List.nodup_singleton _, ?_⟩
    intro x hx hx2
    simp only [List.mem_singleton] at hx2
    subst hx2
    obtain ⟨d, hd, hid⟩ := List.mem_map.1 hx
    exact absurd hid (Nat.ne_of_lt (hlt d hd))
  · intro d hd
    simp only [addDocument, List.mem_append, List.mem_singleton] at hd
    rcases hd with hd | rfl
    · exact Nat.lt_succ_of_lt (hlt d hd)
    · exact Nat.lt_succ_self _

theorem idsOk_updateDocument (db : DB) (docId : Nat) (f : Document → Document)
    (hf : ∀ d, (f d).id = d.id) (h : IdsOk db) : IdsOk (updateDocument db docId f) := by
  obtain ⟨hnd, hlt⟩ := h
  have hmap : (db.documents.map fun d => if d.id = docId then f d else d).map Document.id
      = db.documents.map Document.id := by
    rw [List.map_map]
    refine List.map_congr_left ?_
    intro d _
    by_cases hd : d.id = docId <;> simp [hd, hf]
  constructor
  · simpa [updateDocument, hmap] using hnd
  · intro d hd
    simp only [updateDocument, List.mem_map] at hd
    obtain ⟨d0, hd0, rfl⟩ := hd
    simp only [updateDocument]
    by_cases hc : d0.id = docId
    · rw [if_pos hc, hf d0]
      exact hlt d0 hd0
    · rw [if_neg hc]
      exact hlt d0 hd0

theorem idsOk_step (db : DB) (r : Request) (h : IdsOk db) : IdsOk (step db r) := by
  cases r with
  | ask env initError gen body => exact h
  | listDocuments => exact h
  | listHistory => exact h
  | deleteDoc doc_id now =>
    simp only [step, delete_document]
    cases hf : db.documents.find? (fun d => d.id = doc_id) with
    | none => exact h
    | some doc =>
      obtain ⟨hnd, hlt⟩ := h
      refine ⟨?_, ?_⟩
      · simp only [log_event]
        exact hnd.sublist ((List.filter_sublist _).map _)
      · intro d hd
        simp only [log_event, List.mem_filter] at hd
        exact hlt d hd.1
  | simplify env initError gen req t1 t2 t3 =>
    simp only [step, simplify_document]
    split
    · exact h
    · split
      · exact h
      · split
        · exact idsOk_log_event _ _ _ _
            (idsOk_addDocument _ _ _ _ _ _ _ (idsOk_log_event _ _ _ _ h))
        · split
          · split
            · exact idsOk_log_event _ _ _ _
                (idsOk_updateDocument _ _ _ (fun d => rfl)
                  (idsOk_addDocument _ _ _ _ _ _ _ (idsOk_log_event _ _ _ _ h)))
            · exact idsOk_log_event _ _ _ _
                (idsOk_updateDocument _ _ _ (fun d => rfl)
                  (idsOk_addDocument _ _ _ _ _ _ _ (idsOk_log_event _ _ _ _ h)))
            · exact idsOk_log_event _ _ _ _
                (idsOk_updateDocument _ _ _ (fun d => rfl)
                  (idsOk_addDocument _ _ _ _ _ _ _ (idsOk_log_event _ _ _ _ h)))
          · exact idsOk_log_event _ _ _ _
              (idsOk_updateDocument _ _ _ (fun d => rfl)
                (idsOk_addDocument _ _ _ _ _ _ _ (idsOk_log_event _ _ _ _ h)))

theorem statusesOk_log_event (ty nm : String) (t : Nat) (db : DB) (h : statusesOk db) :
    statusesOk (log_event ty nm t db) := h

theorem statusesOk_addDocument (db : DB) (fn : String) (t : Nat) (s : String)
    (su ft mu : Option String) (hs : s ∈ statusSet) (h : statusesOk db) :
    statusesOk (addDocument db fn t s su ft mu) := by
  intro d hd
  simp only [addDocument, List.mem_append, List.mem_singleton] at hd
  rcases hd with hd | rfl
  · exact h d hd
  · exact hs

theorem statusesOk_updateDocument (db : DB) (docId : Nat) (f : Document → Document)
    (hf : ∀ d, (f d).status = d.status ∨ (f d).status ∈ statusSet) (h : statusesOk db) :
    statusesOk (updateDocument db docId f) := by
  intro d hd
  simp only [updateDocument, List.mem_map] at hd
  obtain ⟨d0, hd0, rfl⟩ := hd
  by_cases hc : d0.id = docId
  · rw [if_pos hc]
    rcases hf d0 with he | he
    · rw [he]; exact h d0 hd0
    · exact he
  · rw [if_neg hc]
    exact h d0 hd0

theorem statusesOk_step (db : DB) (r : Request) (h : statusesOk db) : statusesOk (step db r) := by
  cases r with
  | ask env initError gen body => exact h
  | listDocuments => exact h
  | listHistory => exact h
  | deleteDoc doc_id now =>
    simp only [step, delete_document]
    cases hf : db.documents.find? (fun d => d.id = doc_id) with
    | none => exact h
    | some doc =>
      intro d hd
      simp only [log_event, List.mem_filter] at hd
      exact h d hd.1
  | simplify env initError gen req t1 t2 t3 =>
    simp only [step, simplify_document]
    split
    · exact h
    · split
      · exact h
      · split
        · exact statusesOk_log_event _ _ _ _
            (statusesOk_addDocument _ _ _ _ _ _ _ (by simp [statusSet])
              (statusesOk_log_event _ _ _ _ h))
        · split
          · split
            · exact statusesOk_log_event _ _ _ _
                (statusesOk_updateDocument _ _ _ (fun d => Or.inr (by simp [statusSet]))
                  (statusesOk_addDocument _ _ _ _ _ _ _ (by simp [statusSet])
                    (statusesOk_log_event _ _ _ _ h)))
            · exact statusesOk_log_event _ _ _ _
                (statusesOk_updateDocument _ _ _ (fun d => Or.inr (by simp [statusSet]))
                  (statusesOk_addDocument _ _ _ _ _ _ _ (by simp [statusSet])
                    (statusesOk_log_event _ _ _ _ h)))
            · exact statusesOk_log_event _ _ _ _
                (statusesOk_updateDocument _ _ _ (fun d => Or.inr (by simp [statusSet]))
                  (statusesOk_addDocument _ _ _ _ _ _ _ (by simp [statusSet])
                    (statusesOk_log_event _ _ _ _ h)))
          · exact statusesOk_log_event _ _ _ _
              (statusesOk_updateDocument _ _ _ (fun d => Or.inr (by simp [statusSet]))
                (statusesOk_addDocument _ _ _ _ _ _ _ (by simp [statusSet])
                  (statusesOk_log_event _ _ _ _ h)))

theorem idsOk_applyTrace (rs : List Request) : ∀ db : DB, IdsOk db → IdsOk (applyTrace db rs) := by
  induction rs with
  | nil => exact fun db h => h
  | cons r rs ih => exact fun db h => ih (step db r) (idsOk_step db r h)

theorem statusesOk_applyTrace (rs : List Request) :
    ∀ db : DB, statusesOk db → statusesOk (applyTrace db rs) := by
  induction rs with
  | nil => exact fun db h => h
  | cons r rs ih => exact fun db h => ih (step db r) (statusesOk_step db r h)

theorem statusesOk_emptyDB : statusesOk emptyDB := by
  intro d hd
  simp [emptyDB] at hd

theorem movedTo_zero (db db2 : DB) (fromS toS : String) (hne : fromS ≠ toS)
    (hnd : (db.documents.map Document.id).Nodup)
    (h : ∀ d2 ∈ db2.documents, d2 ∈ db.documents ∨ ∀ d ∈ db.documents, d2.id ≠ d.id) :
    movedTo db db2 fromS toS = 0 := by
  unfold movedTo
  rw [List.length_eq_zero, List.filter_eq_nil_iff]
  intro d hd
  simp only [decide_eq_true_eq, not_and]
  intro h1 h2
  cases hfind : db2.documents.find? (fun d2 => d2.id = d.id) with
  | none => rw [hfind] at h2; simp [Option.any] at h2
  | some d2 =>
    rw [hfind] at h2
    simp only [Option.any, decide_eq_true_eq] at h2
    have hmem : d2 ∈ db2.documents := List.mem_of_find?_eq_some hfind
    have hpred : d2.id = d.id := by simpa using List.find?_some hfind
    rcases h d2 hmem with hin | hnotid
    · have hdd : d2 = d := List.inj_on_of_nodup_map hnd hin hd hpred
      rw [hdd] at h2
      exact hne (h1 ▸ h2 ▸ rfl)
    · exact hnotid d hd hpred

theorem counts_of_refl (db : DB) (hnd : (db.documents.map Document.id).Nodup) :
    appendedEvents db db = [] ∧
    (∀ s, createdWith db db s = 0) ∧
    (∀ toS, "In Progress" ≠ toS → movedTo db db "In Progress" toS = 0) := by
  refine ⟨?_, ?_, ?_⟩
  · simp [appendedEvents]
  · intro s; simp [createdWith]
  · intro toS hne
    exact movedTo_zero db db _ _ hne hnd (fun d2 h2 => Or.inl h2)

theorem counts_of_append (db db2 : DB) (hnd : (db.documents.map Document.id).Nodup)
    (newDocs : List Document) (es : List HistoryEvent)
    (hdocs : db2.documents = db.documents ++ newDocs)
    (hnew : ∀ nd ∈ newDocs, ∀ d ∈ db.documents, nd.id ≠ d.id)
    (hes : db2.events = db.events ++ es) :
    appendedEvents db db2 = es ∧
    (∀ s, createdWith db db2 s = (newDocs.filter fun d => d.status = s).length) ∧
    (∀ toS, "In Progress" ≠ toS → movedTo db db2 "In Progress" toS = 0) := by
  refine ⟨?_, ?_, ?_⟩
  · simp [appendedEvents, hes, List.drop_left]
  · intro s; simp [createdWith, hdocs, List.drop_left]
  · intro toS hne
    apply movedTo_zero db db2 _ _ hne hnd
    intro d2 h2
    rw [hdocs] at h2
    rcases List.mem_append.1 h2 with h2 | h2
    · exact Or.inl h2
    · exact Or.inr fun d hd => hnew d2 h2 d hd

theorem step_counts (db : DB) (r : Request) (hids : IdsOk db) :
    countEvt "ANALYSIS_SUCCESS" (appendedEvents db (step db r)) =
      createdWith db (step db r) "Analyzed" + movedTo db (step db r) "In Progress" "Analyzed" ∧
    countEvt "TEXT_EXTRACT_FAIL" (appendedEvents db (step db r)) +
      countEvt "ANALYSIS_FAIL" (appendedEvents db (step db r)) =
      createdWith db (step db r) "Analysis Failed" +
        movedTo db (step db r) "In Progress" "Analysis Failed" ∧
    createdWith db (step db r) "In Progress" ≤
      countEvt "UPLOAD_SUCCESS" (appendedEvents db (step db r)) := by
  obtain ⟨hnd, hlt⟩ := hids
  cases r with
  | ask env initError gen body =>
    obtain ⟨hae, hcw, hmv⟩ := counts_of_refl db hnd
    simp only [step]
    refine ⟨?_, ?_, ?_⟩
    · rw [hae, hcw, hmv "Analyzed" (by decide)]; simp [countEvt]
    · rw [hae, hcw, hmv "Analysis Failed" (by decide)]; simp [countEvt]
    · rw [hae, hcw]; simp [countEvt]
  | listDocuments =>
    obtain ⟨hae, hcw, hmv⟩ := counts_of_refl db hnd
    simp only [step]
    refine ⟨?_, ?_, ?_⟩
    · rw [hae, hcw, hmv "Analyzed" (by decide)]; simp [countEvt]
    · rw [hae, hcw, hmv "Analysis Failed" (by decide)]; simp [countEvt]
    · rw [hae, hcw]; simp [countEvt]
  | listHistory =>
    obtain ⟨hae, hcw, hmv⟩ := counts_of_refl db hnd
    simp only [step]
    refine ⟨?_, ?_, ?_⟩
    · rw [hae, hcw, hmv "Analyzed" (by decide)]; simp [countEvt]
    · rw [hae, hcw, hmv "Analysis Failed" (by decide)]; simp [countEvt]
    · rw [hae, hcw]; simp [countEvt]
  | deleteDoc doc_id now =>
    cases hf : db.documents.find? (fun d => d.id = doc_id) with
    | none =>
      have hstep : step db (Request.deleteDoc doc_id now) = db := by
        simp [step, delete_document, hf]
      obtain ⟨hae, hcw, hmv⟩ := counts_of_refl db hnd
      rw [hstep]
      refine ⟨?_, ?_, ?_⟩
      · rw [hae, hcw, hmv "Analyzed" (by decide)]; simp [countEvt]
      · rw [hae, hcw, hmv "Analysis Failed" (by decide)]; simp [countEvt]
      · rw [hae, hcw]; simp [countEvt]
    | some doc =>
      have hes : (step db (Request.deleteDoc doc_id now)).events = db.events ++
          [{ id := db.nextEventId, event_type := "DELETE_DOCUMENT",
             document_name := doc.filename, timestamp := now }] := by
        simp [step, delete_document, hf, log_event]
      have hdocsub : (step db (Request.deleteDoc doc_id now)).documents =
          db.documents.filter (fun d => d.id ≠ doc_id) := by
        simp [step, delete_document, hf, log_event]
      have hae : appendedEvents db (step db (Request.deleteDoc doc_id now)) =
          [{ id := db.nextEventId, event_type := "DELETE_DOCUMENT",
             document_name := doc.filename, timestamp := now }] := by
        simp [appendedEvents, hes, List.drop_left]
      have hcw : ∀ s, createdWith db (step db (Request.deleteDoc doc_id now)) s = 0 := by
        intro s
        simp only [createdWith, hdocsub]
        rw [List.drop_eq_nil_of_le (List.length_filter_le _ _)]
        rfl
      have hmv : ∀ toS, "In Progress" ≠ toS →
          movedTo db (step db (Request.deleteDoc doc_id now)) "In Progress" toS = 0 := by
        intro toS hne
        apply movedTo_zero _ _ _ _ hne hnd
        intro d2 h2
        rw [hdocsub] at h2
        exact Or.inl (List.mem_of_mem_filter h2)
      refine ⟨?_, ?_, ?_⟩
      · rw [hae, hcw, hmv "Analyzed" (by decide)]; simp [countEvt]
      · rw [hae, hcw, hmv "Analysis Failed" (by decide)]; simp [countEvt]
      · rw [hae, hcw]; simp [countEvt]
  | simplify env initError gen req t1 t2 t3 =>
    rcases hpf : req.pdfFile with _ | pdf_file
    · have hstep : step db (Request.simplify env initError gen req t1 t2 t3) = db := by
        simp [step, simplify_document, hpf]
      obtain ⟨hae, hcw, hmv⟩ := counts_of_refl db hnd
      rw [hstep]
      refine ⟨?_, ?_, ?_⟩
      · rw [hae, hcw, hmv "Analyzed" (by decide)]; simp [countEvt]
      · rw [hae, hcw, hmv "Analysis Failed" (by decide)]; simp [countEvt]
      · rw [hae, hcw]; simp [countEvt]
    · by_cases hfn : pdf_file.filename = ""
      · have hstep : step db (Request.simplify env initError gen req t1 t2 t3) = db := by
          simp [step, simplify_document, hpf, hfn]
        obtain ⟨hae, hcw, hmv⟩ := counts_of_refl db hnd
        rw [hstep]
        refine ⟨?_, ?_, ?_⟩
        · rw [hae, hcw, hmv "Analyzed" (by decide)]; simp [countEvt]
        · rw [hae, hcw, hmv "Analysis Failed" (by decide)]; simp [countEvt]
        · rw [hae, hcw]; simp [countEvt]
      · have hne_id : ∀ nd : Document, nd.id = db.nextDocId →
            ∀ d ∈ db.documents, nd.id ≠ d.id := by
          intro nd hid d hd
          rw [hid]
          exact Nat.ne_of_gt (hlt d hd)
        rcases hext : extract_text_from_pdf pdf_file.stream with _ | dtext
        · have hdocs : (step db (Request.simplify env initError gen req t1 t2 t3)).documents =
              db.documents ++
              [{ id := db.nextDocId, filename := pdf_file.filename, upload_date := t2,
                 status := "Analysis Failed",
                 summary := some "Could not extract text from PDF.", full_text := none,
                 model_used := some (req.model.getD "gemini-1.5-flash") }] := by
            simp [step, simplify_document, hpf, hfn, hext, log_event, addDocument]
          have hes : (step db (Request.simplify env initError gen req t1 t2 t3)).events =
              db.events ++
              [{ id := db.nextEventId, event_type := "UPLOAD_SUCCESS",
                 document_name := pdf_file.filename, timestamp := t1 },
               { id := db.nextEventId + 1, event_type := "TEXT_EXTRACT_FAIL",
                 document_name := pdf_file.filename, timestamp := t3 }] := by
            simp [step, simplify_document, hpf, hfn, hext, log_event, addDocument]
          obtain ⟨hae, hcw, hmv⟩ := counts_of_append db _ hnd _ _ hdocs
            (by
              intro nd hnd2 d hd
              simp only [List.mem_singleton] at hnd2
              subst hnd2
              exact hne_id _ rfl d hd) hes
          refine ⟨?_, ?_, ?_⟩
          · rw [hae, hcw, hmv "Analyzed" (by decide)]; simp [countEvt]
          · rw [hae, hcw, hmv "Analysis Failed" (by decide)]; simp [countEvt]
          · rw [hae, hcw]; simp [countEvt]
        · cases hstrip : stripIsEmpty dtext with
          | true =>
            have hdocs : (step db (Request.simplify env initError gen req t1 t2 t3)).documents =
                db.documents ++
                [{ id := db.nextDocId, filename := pdf_file.filename, upload_date := t2,
                   status := "Analysis Failed",
                   summary := some "Could not extract text from PDF.", full_text := none,
                   model_used := some (req.model.getD "gemini-1.5-flash") }] := by
              simp [step, simplify_document, hpf, hfn, hext, hstrip, log_event, addDocument]
            have hes : (step db (Request.simplify env initError gen req t1 t2 t3)).events =
                db.events ++
                [{ id := db.nextEventId, event_type := "UPLOAD_SUCCESS",
                   document_name := pdf_file.filename, timestamp := t1 },
                 { id := db.nextEventId + 1, event_type := "TEXT_EXTRACT_FAIL",
                   document_name := pdf_file.filename, timestamp := t3 }] := by
              simp [step, simplify_document, hpf, hfn, hext, hstrip, log_event, addDocument]
            obtain ⟨hae, hcw, hmv⟩ := counts_of_append db _ hnd _ _ hdocs
              (by
                intro nd hnd2 d hd
                simp only [List.mem_singleton] at hnd2
                subst hnd2
                exact hne_id _ rfl d hd) hes
            refine ⟨?_, ?_, ?_⟩
            · rw [hae, hcw, hmv "Analyzed" (by decide)]; simp [countEvt]
            · rw [hae, hcw, hmv "Analysis Failed" (by decide)]; simp [countEvt]
            · rw [hae, hcw]; simp [countEvt]
          | false =>
            rcases hgm : get_gemini_model env initError (req.model.getD "gemini-1.5-flash")
              with e | hmdl
            · have hdocs : (step db
                    (Request.simplify env initError gen req t1 t2 t3)).documents =
                  db.documents ++
                  [{ id := db.nextDocId, filename := pdf_file.filename, upload_date := t2,
                     status := "Analysis Failed", summary := some ("API Error: " ++ e),
                     full_text := some dtext,
                     model_used := some (req.model.getD "gemini-1.5-flash") }] := by
                simp [step, simplify_document, hpf, hfn, hext, hstrip, hgm, log_event,
                  addDocument, updateDocument]
                conv_rhs => rw [← List.map_id db.documents]
                refine List.map_congr_left fun d hd => ?_
                simp [Nat.ne_of_lt (hlt d hd)]
              have hes : (step db (Request.simplify env initError gen req t1 t2 t3)).events =
                  db.events ++
                  [{ id := db.nextEventId, event_type := "UPLOAD_SUCCESS",
                     document_name := pdf_file.filename, timestamp := t1 },
                   { id := db.nextEventId + 1, event_type := "ANALYSIS_FAIL",
                     document_name := pdf_file.filename, timestamp := t3 }] := by
                simp [step, simplify_document, hpf, hfn, hext, hstrip, hgm, log_event,
                  addDocument, updateDocument]
              obtain ⟨hae, hcw, hmv⟩ := counts_of_append db _ hnd _ _ hdocs
                (by
                  intro nd hnd2 d hd
                  simp only [List.mem_singleton] at hnd2
                  subst hnd2
                  exact hne_id _ rfl d hd) hes
              refine ⟨?_, ?_, ?_⟩
              · rw [hae, hcw, hmv "Analyzed" (by decide)]; simp [countEvt]
              · rw [hae, hcw, hmv "Analysis Failed" (by decide)]; simp [countEvt]
              · rw [hae, hcw]; simp [countEvt]
            · cases gen with
              | ok rtext =>
                have hdocs : (step db (Request.simplify env initError (GenOutcome.ok rtext)
                      req t1 t2 t3)).documents =
                    db.documents ++
                    [{ id := db.nextDocId, filename := pdf_file.filename, upload_date := t2,
                       status := "Analyzed", summary := some rtext, full_text := some dtext,
                       model_used := some (req.model.getD "gemini-1.5-flash") }] := by
                  simp [step, simplify_document, hpf, hfn, hext, hstrip, hgm, log_event,
                    addDocument, updateDocument]
                  conv_rhs => rw [← List.map_id db.documents]
                  refine List.map_congr_left fun d hd => ?_
                  simp [Nat.ne_of_lt (hlt d hd)]
                have hes : (step db (Request.simplify env initError (GenOutcome.ok rtext)
                      req t1 t2 t3)).events =
                    db.events ++
                    [{ id := db.nextEventId, event_type := "UPLOAD_SUCCESS",
                       document_name := pdf_file.filename, timestamp := t1 },
                     { id := db.nextEventId + 1, event_type := "ANALYSIS_SUCCESS",
                       document_name := pdf_file.filename, timestamp := t3 }] := by
                  simp [step, simplify_document, hpf, hfn, hext, hstrip, hgm, log_event,
                    addDocument, updateDocument]
                obtain ⟨hae, hcw, hmv⟩ := counts_of_append db _ hnd _ _ hdocs
                  (by
                    intro nd hnd2 d hd
                    simp only [List.mem_singleton] at hnd2
                    subst hnd2
                    exact hne_id _ rfl d hd) hes
                refine ⟨?_, ?_, ?_⟩
                · rw [hae, hcw, hmv "Analyzed" (by decide)]; simp [countEvt]
                · rw [hae, hcw, hmv "Analysis Failed" (by decide)]; simp [countEvt]
                · rw [hae, hcw]; simp [countEvt]
              | raisesValueError e2 =>
                have hdocs : (step db
                      (Request.simplify env initError (GenOutcome.raisesValueError e2)
                        req t1 t2 t3)).documents =
                    db.documents ++
                    [{ id := db.nextDocId, filename := pdf_file.filename, upload_date := t2,
                       status := "Analysis Failed", summary := some ("API Error: " ++ e2),
                       full_text := some dtext,
                       model_used := some (req.model.getD "gemini-1.5-flash") }] := by
                  simp [step, simplify_document, hpf, hfn, hext, hstrip, hgm, log_event,
                    addDocument, updateDocument]
                  conv_rhs => rw [← List.map_id db.documents]
                  refine List.map_congr_left fun d hd => ?_
                  simp [Nat.ne_of_lt (hlt d hd)]
                have hes : (step db
                      (Request.simplify env initError (GenOutcome.raisesValueError e2)
                        req t1 t2 t3)).events =
                    db.events ++
                    [{ id := db.nextEventId, event_type := "UPLOAD_SUCCESS",
                       document_name := pdf_file.filename, timestamp := t1 },
                     { id := db.nextEventId + 1, event_type := "ANALYSIS_FAIL",
                       document_name := pdf_file.filename, timestamp := t3 }] := by
                  simp [step, simplify_document, hpf, hfn, hext, hstrip, hgm, log_event,
                    addDocument, updateDocument]
                obtain ⟨hae, hcw, hmv⟩ := counts_of_append db _ hnd _ _ hdocs
                  (by
                    intro nd hnd2 d hd
                    simp only [List.mem_singleton] at hnd2
                    subst hnd2
                    exact hne_id _ rfl d hd) hes
                refine ⟨?_, ?_, ?_⟩
                · rw [hae, hcw, hmv "Analyzed" (by decide)]; simp [countEvt]
                · rw [hae, hcw, hmv "Analysis Failed" (by decide)]; simp [countEvt]
                · rw [hae, hcw]; simp [countEvt]
              | raisesOther e2 =>
                have hdocs : (step db
                      (Request.simplify env initError (GenOutcome.raisesOther e2)
                        req t1 t2 t3)).documents =
                    db.documents ++
                    [{ id := db.nextDocId, filename := pdf_file.filename, upload_date := t2,
                       status := "Analysis Failed", summary := some ("Analysis failed: " ++ e2),
                       full_text := some dtext,
                       model_used := some (req.model.getD "gemini-1.5-flash") }] := by
                  simp [step, simplify_document, hpf, hfn, hext, hstrip, hgm, log_event,
                    addDocument, updateDocument]
                  conv_rhs => rw [← List.map_id db.documents]
                  refine List.map_congr_left fun d hd => ?_
                  simp [Nat.ne_of_lt (hlt d hd)]
                have hes : (step db
                      (Request.simplify env initError (GenOutcome.raisesOther e2)
                        req t1 t2 t3)).events =
                    db.events ++
                    [{ id := db.nextEventId, event_type := "UPLOAD_SUCCESS",
                       document_name := pdf_file.filename, timestamp := t1 },
                     { id := db.nextEventId + 1, event_type := "ANALYSIS_FAIL",
                       document_name := pdf_file.filename, timestamp := t3 }] := by
                  simp [step, simplify_document, hpf, hfn, hext, hstrip, hgm, log_event,
                    addDocument, updateDocument]
                obtain ⟨hae, hcw, hmv⟩ := counts_of_append db _ hnd _ _ hdocs
                  (by
                    intro nd hnd2 d hd
                    simp only [List.mem_singleton] at hnd2
                    subst hnd2
                    exact hne_id _ rfl d hd) hes
                refine ⟨?_, ?_, ?_⟩
                · rw [hae, hcw, hmv "Analyzed" (by decide)]; simp [countEvt]
                · rw [hae, hcw, hmv "Analysis Failed" (by decide)]; simp [countEvt]
                · rw [hae, hcw]; simp [countEvt]

/-- C3: in every reachable database state each Document row carries exactly
one status (structurally: status is a single field) drawn from the set
Pending / In Progress / Analyzed / Analysis Failed, and in every request
each status transition (creation status included) is matched by exactly one
logged HistoryEvent of its kind: the ANALYSIS_SUCCESS events appended equal
the documents that ended the request Analyzed (fresh or moved from In
Progress), the TEXT_EXTRACT_FAIL plus ANALYSIS_FAIL events appended equal
the documents that ended it Analysis Failed, and each document created In
Progress is covered by an UPLOAD_SUCCESS event. -/
theorem C3_status_invariant_and_event_correspondence (rs : List Request) (r : Request) :
    (∀ d ∈ (applyTrace emptyDB rs).documents, d.status ∈ statusSet) ∧
    countEvt "ANALYSIS_SUCCESS"
        (appendedEvents (applyTrace emptyDB rs) (step (applyTrace emptyDB rs) r)) =
      createdWith (applyTrace emptyDB rs) (step (applyTrace emptyDB rs) r) "Analyzed" +
        movedTo (applyTrace emptyDB rs) (step (applyTrace emptyDB rs) r)
          "In Progress" "Analyzed" ∧
    countEvt "TEXT_EXTRACT_FAIL"
        (appendedEvents (applyTrace emptyDB rs) (step (applyTrace emptyDB rs) r)) +
      countEvt "ANALYSIS_FAIL"
        (appendedEvents (applyTrace emptyDB rs) (step (applyTrace emptyDB rs) r)) =
      createdWith (applyTrace emptyDB rs) (step (applyTrace emptyDB rs) r) "Analysis Failed" +
        movedTo (applyTrace emptyDB rs) (step (applyTrace emptyDB rs) r)
          "In Progress" "Analysis Failed" ∧
    createdWith (applyTrace emptyDB rs) (step (applyTrace emptyDB rs) r) "In Progress" ≤
      countEvt "UPLOAD_SUCCESS"
        (appendedEvents (applyTrace emptyDB rs) (step (applyTrace emptyDB rs) r)) :=
  ⟨statusesOk_applyTrace rs emptyDB statusesOk_emptyDB,
   (step_counts (applyTrace emptyDB rs) r (idsOk_applyTrace rs emptyDB idsOk_emptyDB)).1,
   (step_counts (applyTrace emptyDB rs) r (idsOk_applyTrace rs emptyDB idsOk_emptyDB)).2.1,
   (step_counts (applyTrace emptyDB rs) r (idsOk_applyTrace rs emptyDB idsOk_emptyDB)).2.2⟩

end LegalMind
